import Mathlib

/-!
Verification of the Vote Casting & Tally subsystem of the naturallawfullstack
repository. The definitions below are a shallow embedding of
`naturallawvoting/handlers/ballot.go` (`VoteHandler.Vote`,
`VoteHandler.GetBallotResults`) over the relational state described by
`naturallawvoting/database/schema.sql` (tables `ballots`, `ballot_items`,
`votes`, with the `UNIQUE(user_id, ballot_id)` constraint on `votes`).

Go `int` columns are modelled as `Int`; a table is a list of rows; SQL
`SERIAL` id generation for `votes` is modelled by the `nextVoteId` field.
An HTTP JSON error response `c.JSON(status, gin.H{"error": msg})` is
modelled as an `HttpError` value; the handler either errors (every error
path in the Go code returns before `tx.Commit`, and `defer tx.Rollback()`
discards any partial writes, so the database state is unchanged) or
succeeds with the updated database state.
-/

/-- A row of the `ballots` table (the fields the vote handler reads). -/
structure BallotRow where
  id : Int
  is_active : Bool
  deriving Repr, DecidableEq

/-- A row of the `ballot_items` table. -/
structure BallotItemRow where
  id : Int
  ballot_id : Int
  title : String
  description : String
  vote_count : Int
  deriving Repr, DecidableEq

/-- A row of the `votes` table (the `created_at` column is never read by
the vote handler and is omitted). -/
structure VoteRow where
  id : Int
  user_id : Int
  ballot_id : Int
  ballot_item_id : Int
  deriving Repr, DecidableEq

/-- The relational store as seen by the vote handler.  `nextVoteId` models
the `SERIAL` id sequence of the `votes` table. -/
structure DBState where
  ballots : List BallotRow
  ballot_items : List BallotItemRow
  votes : List VoteRow
  nextVoteId : Int
  deriving Repr, DecidableEq

/-- Go struct `models.VoteRequest`: the JSON body of the cast-vote request.  A field
absent from the JSON is decoded by Go as `0`. -/
structure VoteRequest where
  ballot_item_id : Int
  option_id : Int
  deriving Repr, DecidableEq

/-- An error response `c.JSON(status, gin.H{"error": msg})`. -/
structure HttpError where
  status : Int
  error : String
  deriving Repr, DecidableEq

/-- Response `http.StatusBadRequest`, body `option_id or ballot_item_id is required`. -/
def requiredFieldErr : HttpError := ⟨400, "option_id or ballot_item_id is required"⟩

/-- Response `http.StatusNotFound`, body `Ballot not found`. -/
def ballotNotFoundErr : HttpError := ⟨404, "Ballot not found"⟩

/-- Response `http.StatusBadRequest`, body `Ballot is not active`. -/
def ballotInactiveErr : HttpError := ⟨400, "Ballot is not active"⟩

/-- Response `http.StatusNotFound`, body `Ballot item not found`. -/
def itemNotFoundErr : HttpError := ⟨404, "Ballot item not found"⟩

/-- Response `http.StatusBadRequest`, body `Ballot item does not belong to this ballot`. -/
def itemMismatchErr : HttpError := ⟨400, "Ballot item does not belong to this ballot"⟩

/-- Response `http.StatusInternalServerError`, body `Error creating vote`: the response
to any failure of the `INSERT INTO votes` statement. -/
def errCreatingVote : HttpError := ⟨500, "Error creating vote"⟩

/-- Response `http.StatusInternalServerError`, body `Database error`: the handler's
generic storage-failure response. -/
def dbGenericErr : HttpError := ⟨500, "Database error"⟩

/-- Field resolution in `VoteHandler.Vote`:
`ballotItemID := req.BallotItemID; if ballotItemID == 0 && req.OptionID != 0
\x7b ballotItemID = req.OptionID \x7d`. -/
def resolveItemId (req : VoteRequest) : Int :=
  if req.ballot_item_id == 0 && !(req.option_id == 0) then req.option_id
  else req.ballot_item_id

/-- SQL `UPDATE ballot_items SET vote_count = vote_count + d WHERE id = j`,
applied to one row (`d = 1` for the increment, `d = -1` for the decrement). -/
def adjustItem (j d : Int) (i : BallotItemRow) : BallotItemRow :=
  if i.id == j then { i with vote_count := i.vote_count + d } else i

/-- SQL `UPDATE ballot_items SET vote_count = vote_count + 1 WHERE id = j`. -/
def incItem (s : DBState) (j : Int) : DBState :=
  { s with ballot_items := s.ballot_items.map (adjustItem j 1) }

/-- SQL `UPDATE ballot_items SET vote_count = vote_count - 1 WHERE id = j`. -/
def decItem (s : DBState) (j : Int) : DBState :=
  { s with ballot_items := s.ballot_items.map (adjustItem j (-1)) }

/-- SQL `UPDATE votes SET ballot_item_id = itemId WHERE id = voteId`, applied to
one row. -/
def setVoteItem (voteId itemId : Int) (v : VoteRow) : VoteRow :=
  if v.id == voteId then { v with ballot_item_id := itemId } else v

/-- SQL `UPDATE votes SET ballot_item_id = itemId WHERE id = voteId`. -/
def updateVoteRow (s : DBState) (voteId itemId : Int) : DBState :=
  { s with votes := s.votes.map (setVoteItem voteId itemId) }

/-- SQL `INSERT INTO votes (user_id, ballot_id, ballot_item_id) VALUES (u, b, t)`
with the id drawn from the `SERIAL` sequence (constraint check done by the
caller `voteTxnBody`). -/
def insertVoteRow (s : DBState) (u b t : Int) : DBState :=
  { s with
    votes := s.votes ++ [⟨s.nextVoteId, u, b, t⟩],
    nextVoteId := s.nextVoteId + 1 }

/-- The predicate of `SELECT ... FROM votes WHERE user_id = $1 AND ballot_id = $2`. -/
def voterPred (u b : Int) : VoteRow → Bool :=
  fun v => v.user_id == u && v.ballot_id == b

/-- The body of the transaction in `VoteHandler.Vote`, from the
`SELECT id, ballot_item_id FROM votes ...` lookup onward.  The lookup's
result is a parameter: sequentially it is `s.votes.find? (voterPred u b)`,
but under concurrency the snapshot it was read from may be stale relative to
the state the `INSERT` is constraint-checked against, which is how the
`UNIQUE(user_id, ballot_id)` backstop of `schema.sql` can fire.  A failing
`INSERT` is answered with `errCreatingVote` (the Go code does not inspect
which error the driver returned). -/
def voteTxnBody (s : DBState) (existing : Option VoteRow) (u b t : Int) :
    Except HttpError DBState :=
  match existing with
  | some v =>
      .ok (incItem (updateVoteRow (decItem s v.ballot_item_id) v.id t) t)
  | none =>
      if s.votes.any (voterPred u b) then .error errCreatingVote
      else .ok (incItem (insertVoteRow s u b t) t)

/-- Handler `VoteHandler.Vote` from the field-resolution step onward (the caller
identity `u` is supplied by the auth middleware, the ballot id `b` by the
route parameter).  Every error path in the Go function returns before
`tx.Commit()`, and validation errors occur before `tx.Begin()`, so an error
leaves the store untouched; success commits the mutated store. -/
def castVote (s : DBState) (u b : Int) (req : VoteRequest) :
    Except HttpError DBState :=
  if resolveItemId req == 0 then .error requiredFieldErr
  else
    match s.ballots.find? (fun x => x.id == b) with
    | none => .error ballotNotFoundErr
    | some brow =>
      if !brow.is_active then .error ballotInactiveErr
      else
        match s.ballot_items.find? (fun i => i.id == resolveItemId req) with
        | none => .error itemNotFoundErr
        | some item =>
          if item.ballot_id != b then .error itemMismatchErr
          else voteTxnBody s (s.votes.find? (voterPred u b)) u b (resolveItemId req)

/-- One cast-vote HTTP request: caller identity, route ballot id, JSON body. -/
structure CastOp where
  userId : Int
  ballotId : Int
  req : VoteRequest
  deriving Repr, DecidableEq

/-- The store after one request: an error response leaves it unchanged
(validation failures return before `tx.Begin()`; failures inside the
transaction are rolled back by `defer tx.Rollback()`). -/
def castVoteStep (s : DBState) (op : CastOp) : DBState :=
  match castVote s op.userId op.ballotId op.req with
  | .ok s2 => s2
  | .error _ => s

/-- The store after a sequence of cast-vote requests. -/
def runOps (s : DBState) (ops : List CastOp) : DBState :=
  ops.foldl castVoteStep s

/-- One element of the `results` array of `GetBallotResults`. -/
structure ResultItem where
  id : Int
  option_id : Int
  ballot_id : Int
  title : String
  option_title : String
  description : String
  vote_count : Int
  deriving Repr, DecidableEq

/-- The success payload of `GetBallotResults`. -/
structure ResultsResponse where
  ballot_id : Int
  results : List ResultItem
  total_votes : Int
  deriving Repr, DecidableEq

/-- The `ORDER BY vote_count DESC, id ASC` ordering of the results query. -/
def resultsOrder (a b : BallotItemRow) : Prop :=
  b.vote_count < a.vote_count ∨ (a.vote_count = b.vote_count ∧ a.id ≤ b.id)

instance : DecidableRel resultsOrder := fun a b => by
  unfold resultsOrder; exact inferInstance

instance : IsTotal BallotItemRow resultsOrder :=
  ⟨fun a b => by unfold resultsOrder; omega⟩

instance : IsTrans BallotItemRow resultsOrder :=
  ⟨fun a b c => by unfold resultsOrder; omega⟩

/-- A `ResultItem` built from a scanned `ballot_items` row: `OptionID` and
`OptionTitle` duplicate `ID` and `Title` for frontend compatibility. -/
def toResultItem (i : BallotItemRow) : ResultItem :=
  ⟨i.id, i.id, i.ballot_id, i.title, i.title, i.description, i.vote_count⟩

/-- Handler `VoteHandler.GetBallotResults`: existence check on `ballots` (no
activity check), then
`SELECT ... FROM ballot_items WHERE ballot_id = $1 ORDER BY vote_count DESC, id ASC`,
scanned into `results` while accumulating `totalVotes`. -/
def getBallotResults (s : DBState) (b : Int) : Except HttpError ResultsResponse :=
  if s.ballots.any (fun x => x.id == b) then
    .ok
      { ballot_id := b
        results :=
          ((s.ballot_items.filter (fun i => i.ballot_id == b)).insertionSort
              resultsOrder).map toResultItem
        total_votes :=
          (((s.ballot_items.filter (fun i => i.ballot_id == b)).insertionSort
              resultsOrder).map (fun i => i.vote_count)).sum }
  else .error ballotNotFoundErr

/-- Sum of `vote_count` over ballot `B`'s options. -/
def tallySum (s : DBState) (B : Int) : Int :=
  ((s.ballot_items.filter (fun i => i.ballot_id == B)).map
    (fun i => i.vote_count)).sum

/-- Number of `votes` rows whose `ballot_id` is `B`, as an integer. -/
def countVotes (s : DBState) (B : Int) : Int :=
  ((s.votes.filter (fun v => v.ballot_id == B)).length : Int)

/-- The `vote_count` of the ballot item with id `j`, when it exists. -/
def itemCount (s : DBState) (j : Int) : Option Int :=
  (s.ballot_items.find? (fun i => i.id == j)).map (fun i => i.vote_count)

/-- The option currently recorded for `(u, b)` in the `votes` table. -/
def recordedOption (s : DBState) (u b : Int) : Option Int :=
  (s.votes.find? (voterPred u b)).map (fun v => v.ballot_item_id)

/-- Structural invariants of the store, all enforced by `schema.sql` or by
the handlers: primary-key uniqueness of `ballot_items.id` and `votes.id`,
the `UNIQUE(user_id, ballot_id)` constraint on `votes`, the data-model
invariant that every vote references an existing item of its own ballot,
and freshness of the `SERIAL` sequence. -/
def WellFormed (s : DBState) : Prop :=
  s.ballot_items.Pairwise (fun i j => i.id ≠ j.id) ∧
  s.votes.Pairwise (fun v w => v.id ≠ w.id) ∧
  s.votes.Pairwise (fun v w => ¬(v.user_id = w.user_id ∧ v.ballot_id = w.ballot_id)) ∧
  (∀ v ∈ s.votes, ∃ i ∈ s.ballot_items,
    i.id = v.ballot_item_id ∧ i.ballot_id = v.ballot_id) ∧
  (∀ v ∈ s.votes, v.id < s.nextVoteId)

instance (s : DBState) : Decidable (WellFormed s) := by
  unfold WellFormed; exact inferInstance

/-- Spec-side notion (refinement): a storage conflict on the uniqueness
constraint must be "surfaced as a retryable conflict, distinguishable from
a generic storage error" — in HTTP terms, status 409 Conflict rather than
the 500 used for generic storage failures. -/
def retryableConflict (e : HttpError) : Prop := e.status = 409

/-- The store after the transaction body runs: an error response rolls the
transaction back (`defer tx.Rollback()`), leaving the store unchanged. -/
def txnStepState (s : DBState) (existing : Option VoteRow) (u b t : Int) : DBState :=
  match voteTxnBody s existing u b t with
  | .ok s2 => s2
  | .error _ => s

/-- Store exhibiting the C8 race: the transaction's lookup for user 7 on
ballot 1 returned `none`, but a concurrent cast has already committed a
vote row for that pair, so the `INSERT` hits `UNIQUE(user_id, ballot_id)`. -/
def s8race : DBState :=
  { ballots := [⟨1, true⟩]
    ballot_items := [⟨1, 1, "Go", "", 0⟩, ⟨2, 1, "Python", "", 1⟩]
    votes := [⟨1, 7, 1, 2⟩]
    nextVoteId := 2 }

/-- Concrete store used by the witnesses: ballot 1 active with options 1
and 2, ballot 2 inactive with option 3, no votes yet. -/
def exState : DBState :=
  { ballots := [⟨1, true⟩, ⟨2, false⟩]
    ballot_items := [⟨1, 1, "Go", "", 0⟩, ⟨2, 1, "Python", "", 0⟩, ⟨3, 2, "Rust", "", 0⟩]
    votes := []
    nextVoteId := 1 }

/-- Concrete request sequence used by the witnesses: user 1 votes option 1
then switches to option 2; user 2 votes option 2 via the `option_id` field. -/
def exOps : List CastOp := [⟨1, 1, ⟨1, 0⟩⟩, ⟨1, 1, ⟨2, 0⟩⟩, ⟨2, 1, ⟨0, 2⟩⟩]

/-! ### Basic reduction lemmas for the embedded operations -/

@[simp]
theorem adjustItem_id (j d : Int) (i : BallotItemRow) :
    (adjustItem j d i).id = i.id := by
  unfold adjustItem; split <;> rfl

@[simp]
theorem adjustItem_ballot (j d : Int) (i : BallotItemRow) :
    (adjustItem j d i).ballot_id = i.ballot_id := by
  unfold adjustItem; split <;> rfl

@[simp]
theorem setVoteItem_id (a t : Int) (v : VoteRow) :
    (setVoteItem a t v).id = v.id := by
  unfold setVoteItem; split <;> rfl

@[simp]
theorem setVoteItem_user (a t : Int) (v : VoteRow) :
    (setVoteItem a t v).user_id = v.user_id := by
  unfold setVoteItem; split <;> rfl

@[simp]
theorem setVoteItem_ballot (a t : Int) (v : VoteRow) :
    (setVoteItem a t v).ballot_id = v.ballot_id := by
  unfold setVoteItem; split <;> rfl

@[simp]
theorem incItem_votes (s : DBState) (j : Int) : (incItem s j).votes = s.votes := rfl

@[simp]
theorem incItem_ballots (s : DBState) (j : Int) : (incItem s j).ballots = s.ballots := rfl

@[simp]
theorem incItem_next (s : DBState) (j : Int) : (incItem s j).nextVoteId = s.nextVoteId := rfl

theorem incItem_items (s : DBState) (j : Int) :
    (incItem s j).ballot_items = s.ballot_items.map (adjustItem j 1) := rfl

@[simp]
theorem decItem_votes (s : DBState) (j : Int) : (decItem s j).votes = s.votes := rfl

@[simp]
theorem decItem_ballots (s : DBState) (j : Int) : (decItem s j).ballots = s.ballots := rfl

@[simp]
theorem decItem_next (s : DBState) (j : Int) : (decItem s j).nextVoteId = s.nextVoteId := rfl

theorem decItem_items (s : DBState) (j : Int) :
    (decItem s j).ballot_items = s.ballot_items.map (adjustItem j (-1)) := rfl

@[simp]
theorem updateVoteRow_items (s : DBState) (a t : Int) :
    (updateVoteRow s a t).ballot_items = s.ballot_items := rfl

@[simp]
theorem updateVoteRow_ballots (s : DBState) (a t : Int) :
    (updateVoteRow s a t).ballots = s.ballots := rfl

@[simp]
theorem updateVoteRow_next (s : DBState) (a t : Int) :
    (updateVoteRow s a t).nextVoteId = s.nextVoteId := rfl

theorem updateVoteRow_votes (s : DBState) (a t : Int) :
    (updateVoteRow s a t).votes = s.votes.map (setVoteItem a t) := rfl

@[simp]
theorem insertVoteRow_items (s : DBState) (u b t : Int) :
    (insertVoteRow s u b t).ballot_items = s.ballot_items := rfl

@[simp]
theorem insertVoteRow_ballots (s : DBState) (u b t : Int) :
    (insertVoteRow s u b t).ballots = s.ballots := rfl

theorem insertVoteRow_votes (s : DBState) (u b t : Int) :
    (insertVoteRow s u b t).votes = s.votes ++ [⟨s.nextVoteId, u, b, t⟩] := rfl

theorem insertVoteRow_next (s : DBState) (u b t : Int) :
    (insertVoteRow s u b t).nextVoteId = s.nextVoteId + 1 := rfl

theorem voterPred_eq_true {u b : Int} {v : VoteRow} :
    voterPred u b v = true ↔ v.user_id = u ∧ v.ballot_id = b := by
  simp [voterPred]

/-! ### List-level helper lemmas -/

/-- The `find?` of an id commutes with a counter adjustment of the rows. -/
theorem find?_id_map_adjust (l : List BallotItemRow) (j d k : Int) :
    (l.map (adjustItem j d)).find? (fun i => i.id == k)
      = (l.find? (fun i => i.id == k)).map (adjustItem j d) := by
  rw [List.find?_map]
  have hp : ((fun i : BallotItemRow => i.id == k) ∘ adjustItem j d)
      = (fun i : BallotItemRow => i.id == k) := by
    funext i
    simp
  rw [hp]

theorem itemCount_adjust (s : DBState) (j d k : Int) :
    itemCount { s with ballot_items := s.ballot_items.map (adjustItem j d) } k
      = if k = j then (itemCount s k).map (fun c => c + d) else itemCount s k := by
  unfold itemCount
  simp only [find?_id_map_adjust]
  cases h : s.ballot_items.find? (fun i => i.id == k) with
  | none => split <;> simp
  | some a =>
      have hak : a.id = k := by simpa using List.find?_some h
      by_cases hkj : k = j
      · have : adjustItem j d a = { a with vote_count := a.vote_count + d } := by
          unfold adjustItem
          rw [if_pos (by simp [hak, hkj])]
        simp [this, hkj]
      · have : adjustItem j d a = a := by
          unfold adjustItem
          rw [if_neg (by simp [hak, hkj])]
        simp [this, hkj]

/-- Effect of a counter adjustment on a per-ballot sum of counts. -/
theorem sum_filter_map_adjust (l : List BallotItemRow) (j d B : Int) :
    (((l.map (adjustItem j d)).filter (fun i => i.ballot_id == B)).map
        (fun i => i.vote_count)).sum
      = ((l.filter (fun i => i.ballot_id == B)).map (fun i => i.vote_count)).sum
        + d * (l.countP (fun i => i.id == j && i.ballot_id == B) : Int) := by
  induction l with
  | nil => simp
  | cons x xs ih =>
      by_cases hj : x.id = j
      · by_cases hb : x.ballot_id = B
        · have hx : adjustItem j d x = { x with vote_count := x.vote_count + d } := by
            unfold adjustItem; rw [if_pos (by simp [hj])]
          simp only [List.map_cons, List.filter_cons, List.countP_cons, hx]
          simp only [adjustItem] at *
          simp [hj, hb, ih]
          ring
        · have hx : adjustItem j d x = { x with vote_count := x.vote_count + d } := by
            unfold adjustItem; rw [if_pos (by simp [hj])]
          simp only [List.map_cons, List.filter_cons, List.countP_cons, hx]
          simp [hj, hb, ih]
      · have hx : adjustItem j d x = x := by
          unfold adjustItem; rw [if_neg (by simp [hj])]
        by_cases hb : x.ballot_id = B
        · simp only [List.map_cons, List.filter_cons, List.countP_cons, hx]
          simp [hj, hb, ih]
          ring
        · simp only [List.map_cons, List.filter_cons, List.countP_cons, hx]
          simp [hj, hb, ih]

/-- In a list whose keys are pairwise distinct, two members with the same
key are the same row. -/
theorem keyed_inj {α β : Type} (f : α → β) (l : List α)
    (h : l.Pairwise (fun a b => f a ≠ f b)) :
    ∀ a ∈ l, ∀ c ∈ l, f a = f c → a = c := by
  induction l with
  | nil => intro a ha; simp at ha
  | cons x xs ih =>
      rcases List.pairwise_cons.mp h with ⟨hx, hxs⟩
      intro a ha c hc hfc
      rcases List.mem_cons.mp ha with ha1 | ha2
      · rcases List.mem_cons.mp hc with hc1 | hc2
        · rw [ha1, hc1]
        · subst ha1
          exact absurd hfc (hx c hc2)
      · rcases List.mem_cons.mp hc with hc1 | hc2
        · subst hc1
          exact absurd hfc.symm (hx a ha2)
        · exact ih hxs a ha2 c hc2 hfc

/-- In a list of items with pairwise distinct ids, the count of rows
matching a given member's id is decided by that member alone. -/
theorem countP_key_of_mem (l : List BallotItemRow)
    (h : l.Pairwise (fun a b => a.id ≠ b.id))
    (x : BallotItemRow) (hx : x ∈ l) (q : BallotItemRow → Bool) :
    l.countP (fun i => i.id == x.id && q i) = if q x then 1 else 0 := by
  induction l with
  | nil => simp at hx
  | cons y ys ih =>
      rcases List.pairwise_cons.mp h with ⟨hy, hys⟩
      rcases List.mem_cons.mp hx with hx1 | hx2
      · subst hx1
        rw [List.countP_cons]
        have h0 : ys.countP (fun i => i.id == x.id && q i) = 0 := by
          rw [List.countP_eq_zero]
          intro a ha
          simp only [Bool.and_eq_true, beq_iff_eq, not_and]
          intro hid
          exact absurd hid.symm (hy a ha)
        simp [h0]
      · rw [List.countP_cons, ih hys hx2]
        have hne : (y.id == x.id && q y) = false := by
          simp only [Bool.and_eq_false_iff]
          left
          simpa using hy x hx2
        simp [hne]

/-- Count adjustment does not change how many rows match an id/ballot
predicate. -/
theorem countP_map_adjust (l : List BallotItemRow) (j d : Int)
    (p : Int → Int → Bool) :
    (l.map (adjustItem j d)).countP (fun i => p i.id i.ballot_id)
      = l.countP (fun i => p i.id i.ballot_id) := by
  rw [List.countP_map]
  congr 1
  funext i
  simp

/-- The `updateVoteRow` operation does not change the number of votes of any ballot. -/
theorem countVotes_update (s : DBState) (a t B : Int) :
    countVotes (updateVoteRow s a t) B = countVotes s B := by
  unfold countVotes
  rw [updateVoteRow_votes, List.filter_map]
  have hp : ((fun v : VoteRow => v.ballot_id == B) ∘ setVoteItem a t)
      = (fun v : VoteRow => v.ballot_id == B) := by
    funext v
    simp
  rw [hp, List.length_map]

/-- The `insertVoteRow` operation adds one vote to the target ballot and none elsewhere. -/
theorem countVotes_insert (s : DBState) (u b t B : Int) :
    countVotes (insertVoteRow s u b t) B
      = countVotes s B + if b = B then 1 else 0 := by
  unfold countVotes
  rw [insertVoteRow_votes, List.filter_append]
  by_cases hb : b = B <;> simp [hb]

/-- The `tallySum` value only reads `ballot_items`, so vote-row operations keep it. -/
theorem tallySum_state_votes (s : DBState) (B : Int) (vs : List VoteRow) (n : Int) :
    tallySum { s with votes := vs, nextVoteId := n } B = tallySum s B := rfl

/-! ### Characterisation of `castVote` -/

/-- When all four validations pass, `castVote` is the transaction body
applied to the sequentially looked-up existing vote. -/
theorem castVote_eq_txn (s : DBState) (u b : Int) (req : VoteRequest)
    {brow : BallotRow} {item : BallotItemRow}
    (h0 : (resolveItemId req == 0) = false)
    (hb : s.ballots.find? (fun x => x.id == b) = some brow)
    (ha : brow.is_active = true)
    (hi : s.ballot_items.find? (fun i => i.id == resolveItemId req) = some item)
    (hib : item.ballot_id = b) :
    castVote s u b req
      = voteTxnBody s (s.votes.find? (voterPred u b)) u b (resolveItemId req) := by
  unfold castVote
  rw [hb, hi]
  simp [h0, ha, hib]

/-- Successful casts are exactly the valid ones, and produce one of the two
transaction outcomes (fresh insert, or in-place switch). -/
theorem castVote_ok_cases {s : DBState} {u b : Int} {req : VoteRequest}
    {s2 : DBState} (h : castVote s u b req = .ok s2) :
    (resolveItemId req == 0) = false ∧
    (∃ brow, s.ballots.find? (fun x => x.id == b) = some brow ∧
      brow.is_active = true) ∧
    (∃ item, s.ballot_items.find? (fun i => i.id == resolveItemId req) = some item ∧
      item.ballot_id = b) ∧
    ((s.votes.find? (voterPred u b) = none ∧
        s2 = incItem (insertVoteRow s u b (resolveItemId req)) (resolveItemId req)) ∨
      (∃ v, s.votes.find? (voterPred u b) = some v ∧
        s2 = incItem
          (updateVoteRow (decItem s v.ballot_item_id) v.id (resolveItemId req))
          (resolveItemId req))) := by
  unfold castVote at h
  split at h
  · exact absurd h (by simp)
  · rename_i h0
    split at h
    · exact absurd h (by simp)
    · rename_i brow hb
      split at h
      · exact absurd h (by simp)
      · rename_i ha
        split at h
        · exact absurd h (by simp)
        · rename_i item hi
          split at h
          · exact absurd h (by simp)
          · rename_i hib
            refine ⟨by simpa using h0, ⟨brow, hb, by simpa using ha⟩,
              ⟨item, hi, by simpa using hib⟩, ?_⟩
            unfold voteTxnBody at h
            split at h
            · rename_i v hv
              right
              exact ⟨v, hv, by injection h with h2; exact h2.symm⟩
            · rename_i hv
              split at h
              · exact absurd h (by simp)
              · left
                exact ⟨hv, by injection h with h2; exact h2.symm⟩

/-! ### Preservation of well-formedness -/

theorem find?_voter_fields {s : DBState} {u b : Int} {v : VoteRow}
    (hv : s.votes.find? (voterPred u b) = some v) :
    v ∈ s.votes ∧ v.user_id = u ∧ v.ballot_id = b := by
  refine ⟨List.mem_of_find?_eq_some hv, ?_⟩
  exact voterPred_eq_true.mp (List.find?_some hv)

/-- A fresh insert (no prior vote for `(u, b)`) preserves all structural
invariants of the store. -/
theorem wf_insert (s : DBState) (u b t : Int) (item : BallotItemRow)
    (hwf : WellFormed s)
    (hnone : s.votes.find? (voterPred u b) = none)
    (hi : s.ballot_items.find? (fun i => i.id == t) = some item)
    (hib : item.ballot_id = b) :
    WellFormed (incItem (insertVoteRow s u b t) t) := by
  obtain ⟨h1, h2, h3, h4, h5⟩ := hwf
  have hitem_mem : item ∈ s.ballot_items := List.mem_of_find?_eq_some hi
  have hitem_id : item.id = t := by simpa using List.find?_some hi
  have hnomem : ∀ w ∈ s.votes, ¬(w.user_id = u ∧ w.ballot_id = b) := by
    intro w hw
    have := List.find?_eq_none.mp hnone w hw
    simpa [voterPred_eq_true] using this
  refine ⟨?_, ?_, ?_, ?_, ?_⟩
  · simp only [incItem_items, insertVoteRow_items]
    rw [List.pairwise_map]
    exact h1.imp (fun hab => by simpa using hab)
  · simp only [incItem_votes, insertVoteRow_votes]
    rw [List.pairwise_append]
    refine ⟨h2, by simp, ?_⟩
    intro a ha c hc
    simp only [List.mem_singleton] at hc
    subst hc
    have := h5 a ha
    simp only []
    omega
  · simp only [incItem_votes, insertVoteRow_votes]
    rw [List.pairwise_append]
    refine ⟨h3, by simp, ?_⟩
    intro a ha c hc
    simp only [List.mem_singleton] at hc
    subst hc
    exact hnomem a ha
  · simp only [incItem_votes, insertVoteRow_votes, incItem_items, insertVoteRow_items]
    intro w hw
    rcases List.mem_append.mp hw with hw1 | hw2
    · obtain ⟨i, hi_mem, hid, hbl⟩ := h4 w hw1
      exact ⟨adjustItem t 1 i, List.mem_map_of_mem _ hi_mem,
        by simpa using hid, by simpa using hbl⟩
    · simp only [List.mem_singleton] at hw2
      subst hw2
      exact ⟨adjustItem t 1 item, List.mem_map_of_mem _ hitem_mem,
        by simpa using hitem_id, by simpa using hib⟩
  · simp only [incItem_votes, insertVoteRow_votes, incItem_next, insertVoteRow_next]
    intro w hw
    rcases List.mem_append.mp hw with hw1 | hw2
    · have := h5 w hw1
      omega
    · simp only [List.mem_singleton] at hw2
      subst hw2
      simp only []
      omega

/-- An in-place vote switch preserves all structural invariants of the
store. -/
theorem wf_update (s : DBState) (u b t : Int) (v : VoteRow) (item : BallotItemRow)
    (hwf : WellFormed s)
    (hv : s.votes.find? (voterPred u b) = some v)
    (hi : s.ballot_items.find? (fun i => i.id == t) = some item)
    (hib : item.ballot_id = b) :
    WellFormed (incItem (updateVoteRow (decItem s v.ballot_item_id) v.id t) t) := by
  obtain ⟨h1, h2, h3, h4, h5⟩ := hwf
  obtain ⟨hv_mem, hv_user, hv_ballot⟩ := find?_voter_fields hv
  have hitem_mem : item ∈ s.ballot_items := List.mem_of_find?_eq_some hi
  have hitem_id : item.id = t := by simpa using List.find?_some hi
  refine ⟨?_, ?_, ?_, ?_, ?_⟩
  · simp only [incItem_items, updateVoteRow_items, decItem_items]
    rw [List.pairwise_map, List.pairwise_map]
    exact h1.imp (fun hab => by simpa using hab)
  · simp only [incItem_votes, updateVoteRow_votes, decItem_votes]
    rw [List.pairwise_map]
    exact h2.imp (fun hab => by simpa using hab)
  · simp only [incItem_votes, updateVoteRow_votes, decItem_votes]
    rw [List.pairwise_map]
    exact h3.imp (fun hab => by simpa using hab)
  · simp only [incItem_votes, updateVoteRow_votes, decItem_votes,
      incItem_items, updateVoteRow_items, decItem_items]
    intro w2 hw2
    obtain ⟨w, hw, rfl⟩ := List.mem_map.mp hw2
    by_cases hwid : w.id = v.id
    · have hwv : w = v := keyed_inj VoteRow.id s.votes h2 w hw v hv_mem hwid
      have hset : setVoteItem v.id t w = { w with ballot_item_id := t } := by
        unfold setVoteItem
        rw [if_pos (by simp [hwid])]
      refine ⟨adjustItem t 1 (adjustItem v.ballot_item_id (-1) item),
        List.mem_map_of_mem _ (List.mem_map_of_mem _ hitem_mem), ?_, ?_⟩
      · simp [hset, hitem_id]
      · simp [hset, hib, hwv, hv_ballot]
    · have hset : setVoteItem v.id t w = w := by
        unfold setVoteItem
        rw [if_neg (by simp [hwid])]
      obtain ⟨i, hi_mem, hid, hbl⟩ := h4 w hw
      refine ⟨adjustItem t 1 (adjustItem v.ballot_item_id (-1) i),
        List.mem_map_of_mem _ (List.mem_map_of_mem _ hi_mem), ?_, ?_⟩
      · simp [hset, hid]
      · simp [hset, hbl]
  · simp only [incItem_votes, updateVoteRow_votes, decItem_votes,
      incItem_next, updateVoteRow_next, decItem_next]
    intro w2 hw2
    obtain ⟨w, hw, rfl⟩ := List.mem_map.mp hw2
    simpa using h5 w hw

/-- One request (successful or not) preserves well-formedness. -/
theorem wf_castVoteStep (s : DBState) (op : CastOp) (hwf : WellFormed s) :
    WellFormed (castVoteStep s op) := by
  unfold castVoteStep
  cases hcv : castVote s op.userId op.ballotId op.req with
  | error e => exact hwf
  | ok s2 =>
      obtain ⟨h0, ⟨brow, hb, ha⟩, ⟨item, hi, hib⟩, hcase⟩ := castVote_ok_cases hcv
      rcases hcase with ⟨hnone, rfl⟩ | ⟨v, hv, rfl⟩
      · exact wf_insert s op.userId op.ballotId (resolveItemId op.req) item hwf hnone hi hib
      · exact wf_update s op.userId op.ballotId (resolveItemId op.req) v item hwf hv hi hib

theorem wf_runOps (s : DBState) (ops : List CastOp) (hwf : WellFormed s) :
    WellFormed (runOps s ops) := by
  induction ops generalizing s with
  | nil => exact hwf
  | cons op ops ih =>
      exact ih (castVoteStep s op) (wf_castVoteStep s op hwf)

/-! ### Preservation of the tally invariant -/

theorem tallySum_incItem (X : DBState) (t B : Int) :
    tallySum (incItem X t) B
      = tallySum X B
        + 1 * (X.ballot_items.countP (fun i => i.id == t && i.ballot_id == B) : Int) := by
  have h : tallySum (incItem X t) B
      = (((X.ballot_items.map (adjustItem t 1)).filter
          (fun i => i.ballot_id == B)).map (fun i => i.vote_count)).sum := rfl
  rw [h, sum_filter_map_adjust]
  rfl

theorem tallySum_decItem (X : DBState) (t B : Int) :
    tallySum (decItem X t) B
      = tallySum X B
        + (-1) * (X.ballot_items.countP (fun i => i.id == t && i.ballot_id == B) : Int) := by
  have h : tallySum (decItem X t) B
      = (((X.ballot_items.map (adjustItem t (-1))).filter
          (fun i => i.ballot_id == B)).map (fun i => i.vote_count)).sum := rfl
  rw [h, sum_filter_map_adjust]
  rfl

theorem countVotes_incItem (X : DBState) (t B : Int) :
    countVotes (incItem X t) B = countVotes X B := rfl

theorem countVotes_decItem (X : DBState) (t B : Int) :
    countVotes (decItem X t) B = countVotes X B := rfl

theorem tallySum_updateVoteRow (X : DBState) (a t B : Int) :
    tallySum (updateVoteRow X a t) B = tallySum X B := rfl

/-- With pairwise-distinct item ids, the number of rows matching
`id == t && ballot_id == B` when the row with id `t` is known to live on
ballot `b`. -/
theorem countP_found (l : List BallotItemRow)
    (h1 : l.Pairwise (fun a c => a.id ≠ c.id))
    (item : BallotItemRow) (hmem : item ∈ l) (t b B : Int)
    (hid : item.id = t) (hib : item.ballot_id = b) :
    (l.countP (fun i => i.id == t && i.ballot_id == B) : Int)
      = if b = B then 1 else 0 := by
  subst hid
  rw [countP_key_of_mem l h1 item hmem (fun i => i.ballot_id == B)]
  by_cases hbB : b = B <;> simp [hib, hbB]

/-- A successful cast keeps `sum of vote_count = number of votes` for every
ballot. -/
theorem inv_castVoteStep (B : Int) (s : DBState) (op : CastOp)
    (hwf : WellFormed s) (hinv : tallySum s B = countVotes s B) :
    tallySum (castVoteStep s op) B = countVotes (castVoteStep s op) B := by
  obtain ⟨h1, h2, h3, h4, h5⟩ := hwf
  unfold castVoteStep
  cases hcv : castVote s op.userId op.ballotId op.req with
  | error e => exact hinv
  | ok s2 =>
      obtain ⟨h0, ⟨brow, hb, ha⟩, ⟨item, hi, hib⟩, hcase⟩ := castVote_ok_cases hcv
      have hitem_mem : item ∈ s.ballot_items := List.mem_of_find?_eq_some hi
      have hitem_id : item.id = resolveItemId op.req := by
        simpa using List.find?_some hi
      rcases hcase with ⟨hnone, rfl⟩ | ⟨v, hv, rfl⟩
      · rw [tallySum_incItem, countVotes_incItem]
        have hins_t : tallySum (insertVoteRow s op.userId op.ballotId
            (resolveItemId op.req)) B = tallySum s B := rfl
        have hins_items : (insertVoteRow s op.userId op.ballotId
            (resolveItemId op.req)).ballot_items = s.ballot_items := rfl
        rw [hins_t, hins_items, countVotes_insert,
          countP_found s.ballot_items h1 item hitem_mem _ op.ballotId B hitem_id hib,
          hinv]
        ring
      · obtain ⟨hv_mem, hv_user, hv_ballot⟩ := find?_voter_fields hv
        obtain ⟨i0, hi0_mem, hi0_id, hi0_bl⟩ := h4 v hv_mem
        rw [tallySum_incItem, countVotes_incItem, countVotes_update,
          countVotes_decItem]
        have hupd_items : (updateVoteRow (decItem s v.ballot_item_id) v.id
            (resolveItemId op.req)).ballot_items
            = s.ballot_items.map (adjustItem v.ballot_item_id (-1)) := rfl
        rw [hupd_items, tallySum_updateVoteRow, tallySum_decItem]
        have hcnt_t :
            ((s.ballot_items.map (adjustItem v.ballot_item_id (-1))).countP
              (fun i => i.id == resolveItemId op.req && i.ballot_id == B) : Int)
            = if op.ballotId = B then 1 else 0 := by
          rw [countP_map_adjust s.ballot_items v.ballot_item_id (-1)
            (fun a c => a == resolveItemId op.req && c == B)]
          exact countP_found s.ballot_items h1 item hitem_mem _ op.ballotId B
            hitem_id hib
        have hcnt_old :
            (s.ballot_items.countP
              (fun i => i.id == v.ballot_item_id && i.ballot_id == B) : Int)
            = if op.ballotId = B then 1 else 0 := by
          exact countP_found s.ballot_items h1 i0 hi0_mem _ op.ballotId B
            hi0_id (by rw [hi0_bl, hv_ballot])
        rw [hcnt_t, hcnt_old, hinv]
        ring

theorem inv_runOps (B : Int) (s : DBState) (ops : List CastOp)
    (hwf : WellFormed s) (hinv : tallySum s B = countVotes s B) :
    tallySum (runOps s ops) B = countVotes (runOps s ops) B := by
  induction ops generalizing s with
  | nil => exact hinv
  | cons op ops ih =>
      exact ih (castVoteStep s op) (wf_castVoteStep s op hwf)
        (inv_castVoteStep B s op hwf hinv)

/-! ### Auxiliary facts for the claim theorems -/

theorem length_filter_voter_le_one (l : List VoteRow)
    (h3 : l.Pairwise fun v w => ¬(v.user_id = w.user_id ∧ v.ballot_id = w.ballot_id))
    (u b : Int) : (l.filter (voterPred u b)).length ≤ 1 := by
  induction l with
  | nil => simp
  | cons x xs ih =>
      rcases List.pairwise_cons.mp h3 with ⟨hx, hxs⟩
      by_cases hpx : voterPred u b x = true
      · have hx_fields := voterPred_eq_true.mp hpx
        have hrest : xs.filter (voterPred u b) = [] := by
          rw [List.filter_eq_nil_iff]
          intro w hw
          intro hpw
          have hw_fields := voterPred_eq_true.mp hpw
          exact hx w hw ⟨hx_fields.1.trans hw_fields.1.symm,
            hx_fields.2.trans hw_fields.2.symm⟩
        simp [List.filter_cons, hpx, hrest]
      · simp only [List.filter_cons, hpx, if_false]
        exact ih hxs

/-! ### Claim theorems -/

/-- C1: for every ballot `B` and every sequence of cast-vote operations
starting from a well-formed store in which `B`'s options all have
`vote_count = 0` and no vote rows exist for `B`, after each completed cast
the sum of `vote_count` over `B`'s options equals the number of vote rows
whose `ballot_id` is `B`. -/
theorem c1_tally_invariant (s0 : DBState) (B : Int) (ops : List CastOp)
    (hwf : WellFormed s0)
    (hzero : ∀ i ∈ s0.ballot_items, i.ballot_id = B → i.vote_count = 0)
    (hno : ∀ v ∈ s0.votes, v.ballot_id ≠ B) :
    ∀ n : Nat, tallySum (runOps s0 (ops.take n)) B
      = countVotes (runOps s0 (ops.take n)) B := by
  have hbase_t : tallySum s0 B = 0 := by
    unfold tallySum
    apply List.sum_eq_zero
    intro x hx
    obtain ⟨i, hi_mem, rfl⟩ := List.mem_map.mp hx
    have hmf := List.mem_filter.mp hi_mem
    exact hzero i hmf.1 (by simpa using hmf.2)
  have hbase_c : countVotes s0 B = 0 := by
    unfold countVotes
    have hnil : s0.votes.filter (fun v => v.ballot_id == B) = [] := by
      rw [List.filter_eq_nil_iff]
      intro v hv
      simpa using hno v hv
    rw [hnil]
    rfl
  intro n
  exact inv_runOps B s0 (ops.take n) hwf (by rw [hbase_t, hbase_c])

/-- C1 witness: the invariant holds for ballot 1 of the concrete store
after each of the three concrete requests. -/
theorem c1_tally_invariant_witness :
    WellFormed exState ∧
    (∀ i ∈ exState.ballot_items, i.ballot_id = 1 → i.vote_count = 0) ∧
    (∀ v ∈ exState.votes, v.ballot_id ≠ 1) ∧
    ∀ n : Nat, tallySum (runOps exState (exOps.take n)) 1
      = countVotes (runOps exState (exOps.take n)) 1 :=
  ⟨by decide, by decide, by decide,
    c1_tally_invariant exState 1 exOps (by decide) (by decide) (by decide)⟩

/-- C2: starting from a well-formed store, after any sequence of cast-vote
operations there is at most one vote row per `(user, ballot)` pair; a cast
that finds an existing row updates it in place (same number of rows), a
cast that finds none appends exactly one row; and the store's uniqueness
constraint rejects an insert for a pair that already has a committed row. -/
theorem c2_vote_uniqueness (s0 : DBState) (ops : List CastOp)
    (hwf : WellFormed s0) :
    (∀ n : Nat, ∀ u b : Int,
      ((runOps s0 (ops.take n)).votes.filter (voterPred u b)).length ≤ 1) ∧
    (∀ s : DBState, ∀ u b : Int, ∀ req : VoteRequest, ∀ s2 : DBState,
      castVote s u b req = .ok s2 →
      ((s.votes.find? (voterPred u b) = none →
          s2.votes = s.votes ++ [⟨s.nextVoteId, u, b, resolveItemId req⟩]) ∧
        (∀ v, s.votes.find? (voterPred u b) = some v →
          s2.votes.length = s.votes.length))) ∧
    (∀ s : DBState, ∀ u b t : Int, s.votes.any (voterPred u b) = true →
      voteTxnBody s none u b t = .error errCreatingVote) := by
  refine ⟨?_, ?_, ?_⟩
  · intro n u b
    have hwf2 := wf_runOps s0 (ops.take n) hwf
    exact length_filter_voter_le_one _ hwf2.2.2.1 u b
  · intro s u b req s2 hok
    obtain ⟨h0, hb, hi, hcase⟩ := castVote_ok_cases hok
    refine ⟨?_, ?_⟩
    · intro hnone
      rcases hcase with ⟨hn2, rfl⟩ | ⟨v, hv, rfl⟩
      · rw [incItem_votes, insertVoteRow_votes]
      · rw [hnone] at hv
        exact absurd hv (by simp)
    · intro v hv
      rcases hcase with ⟨hn2, rfl⟩ | ⟨w, hw, rfl⟩
      · rw [hn2] at hv
        exact absurd hv (by simp)
      · rw [incItem_votes, updateVoteRow_votes, List.length_map, decItem_votes]
  · intro s u b t hany
    unfold voteTxnBody
    simp [hany]

/-- C2 witness: at most one vote row per pair throughout the concrete run,
and the mechanism clauses instantiated there. -/
theorem c2_vote_uniqueness_witness :
    WellFormed exState ∧
    ((∀ n : Nat, ∀ u b : Int,
      ((runOps exState (exOps.take n)).votes.filter (voterPred u b)).length ≤ 1) ∧
    (∀ s : DBState, ∀ u b : Int, ∀ req : VoteRequest, ∀ s2 : DBState,
      castVote s u b req = .ok s2 →
      ((s.votes.find? (voterPred u b) = none →
          s2.votes = s.votes ++ [⟨s.nextVoteId, u, b, resolveItemId req⟩]) ∧
        (∀ v, s.votes.find? (voterPred u b) = some v →
          s2.votes.length = s.votes.length))) ∧
    (∀ s : DBState, ∀ u b t : Int, s.votes.any (voterPred u b) = true →
      voteTxnBody s none u b t = .error errCreatingVote)) :=
  ⟨by decide, c2_vote_uniqueness exState exOps (by decide)⟩

/-! ### Per-option count and recorded-vote lemmas -/

theorem itemCount_incItem (X : DBState) (t k : Int) :
    itemCount (incItem X t) k
      = if k = t then (itemCount X k).map (fun c => c + 1) else itemCount X k :=
  itemCount_adjust X t 1 k

theorem itemCount_decItem (X : DBState) (t k : Int) :
    itemCount (decItem X t) k
      = if k = t then (itemCount X k).map (fun c => c + (-1)) else itemCount X k :=
  itemCount_adjust X t (-1) k

theorem itemCount_insertVoteRow (X : DBState) (u b t k : Int) :
    itemCount (insertVoteRow X u b t) k = itemCount X k := rfl

theorem itemCount_updateVoteRow (X : DBState) (a t k : Int) :
    itemCount (updateVoteRow X a t) k = itemCount X k := rfl

theorem find?_voter_insert (s : DBState) (u b t : Int)
    (hnone : s.votes.find? (voterPred u b) = none) :
    (s.votes ++ [(⟨s.nextVoteId, u, b, t⟩ : VoteRow)]).find? (voterPred u b)
      = some (⟨s.nextVoteId, u, b, t⟩ : VoteRow) := by
  have hp : voterPred u b ⟨s.nextVoteId, u, b, t⟩ = true := by
    simp [voterPred]
  rw [List.find?_append, hnone, List.find?_cons_of_pos _ hp]
  rfl

theorem voter_comp_set (a t u b : Int) :
    (voterPred u b ∘ setVoteItem a t) = voterPred u b := by
  funext v
  simp [voterPred]

theorem find?_voter_map_set (l : List VoteRow) (a t u b : Int) :
    (l.map (setVoteItem a t)).find? (voterPred u b)
      = (l.find? (voterPred u b)).map (setVoteItem a t) := by
  rw [List.find?_map, voter_comp_set]

theorem filter_voter_map_set (l : List VoteRow) (a t u b : Int) :
    (l.map (setVoteItem a t)).filter (voterPred u b)
      = (l.filter (voterPred u b)).map (setVoteItem a t) := by
  rw [List.filter_map, voter_comp_set]

/-- After any successful cast, the vote recorded for `(u, b)` is the
resolved requested option. -/
theorem recordedOption_after_cast {s : DBState} {u b : Int} {req : VoteRequest}
    {s2 : DBState} (hok : castVote s u b req = .ok s2) :
    recordedOption s2 u b = some (resolveItemId req) := by
  obtain ⟨h0, hb, hi, hcase⟩ := castVote_ok_cases hok
  rcases hcase with ⟨hnone, rfl⟩ | ⟨v, hv, rfl⟩
  · unfold recordedOption
    rw [incItem_votes, insertVoteRow_votes, find?_voter_insert s u b _ hnone]
    rfl
  · unfold recordedOption
    rw [incItem_votes, updateVoteRow_votes, decItem_votes, find?_voter_map_set,
      hv]
    have hset : setVoteItem v.id (resolveItemId req) v
        = { v with ballot_item_id := resolveItemId req } := by
      unfold setVoteItem
      rw [if_pos (by simp)]
    simp [hset]

/-- C3: a valid completed cast either (no prior vote) appends exactly one
vote row with the resolved option and increments that option's count by 1,
or (prior vote on a different option) decrements the previously chosen
option's count by 1, updates the vote row's option in place, and increments
the newly chosen option's count by 1, leaving all other counts unchanged. -/
theorem c3_cast_effects (s : DBState) (u b : Int) (req : VoteRequest)
    (s2 : DBState) (hok : castVote s u b req = .ok s2) :
    (s.votes.find? (voterPred u b) = none →
      s2.votes = s.votes ++ [⟨s.nextVoteId, u, b, resolveItemId req⟩] ∧
      itemCount s2 (resolveItemId req)
        = (itemCount s (resolveItemId req)).map (fun c => c + 1) ∧
      ∀ j : Int, j ≠ resolveItemId req → itemCount s2 j = itemCount s j) ∧
    (∀ v : VoteRow, s.votes.find? (voterPred u b) = some v →
      v.ballot_item_id ≠ resolveItemId req →
      itemCount s2 v.ballot_item_id
        = (itemCount s v.ballot_item_id).map (fun c => c - 1) ∧
      s2.votes = s.votes.map (setVoteItem v.id (resolveItemId req)) ∧
      itemCount s2 (resolveItemId req)
        = (itemCount s (resolveItemId req)).map (fun c => c + 1) ∧
      (∀ j : Int, j ≠ resolveItemId req → j ≠ v.ballot_item_id →
        itemCount s2 j = itemCount s j)) := by
  obtain ⟨h0, hbex, hiex, hcase⟩ := castVote_ok_cases hok
  have hsub : (fun c : Int => c + (-1)) = fun c : Int => c - 1 := by
    funext c
    ring
  constructor
  · intro hnone
    rcases hcase with ⟨hn, rfl⟩ | ⟨v, hv, rfl⟩
    · refine ⟨by rw [incItem_votes, insertVoteRow_votes], ?_, ?_⟩
      · rw [itemCount_incItem, if_pos rfl, itemCount_insertVoteRow]
      · intro j hj
        rw [itemCount_incItem, if_neg hj, itemCount_insertVoteRow]
    · rw [hnone] at hv
      exact absurd hv (by simp)
  · intro v hv hne
    rcases hcase with ⟨hn, rfl⟩ | ⟨w, hw, rfl⟩
    · rw [hn] at hv
      exact absurd hv (by simp)
    · rw [hv] at hw
      injection hw with hw2
      subst hw2
      refine ⟨?_, ?_, ?_, ?_⟩
      · rw [itemCount_incItem, if_neg hne, itemCount_updateVoteRow,
          itemCount_decItem, if_pos rfl, hsub]
      · rw [incItem_votes, updateVoteRow_votes, decItem_votes]
      · rw [itemCount_incItem, if_pos rfl, itemCount_updateVoteRow,
          itemCount_decItem, if_neg (fun h => hne h.symm)]
      · intro j hjt hjv
        rw [itemCount_incItem, if_neg hjt, itemCount_updateVoteRow,
          itemCount_decItem, if_neg hjv]

/-- C3 witness: user 1's first cast on the concrete store appends a vote
row for option 1 and increments its count. -/
theorem c3_cast_effects_witness :
    castVote exState 1 1 ⟨1, 0⟩ = .ok (castVoteStep exState ⟨1, 1, ⟨1, 0⟩⟩) ∧
    ((exState.votes.find? (voterPred 1 1) = none →
      (castVoteStep exState ⟨1, 1, ⟨1, 0⟩⟩).votes
        = exState.votes ++ [⟨exState.nextVoteId, 1, 1, resolveItemId ⟨1, 0⟩⟩] ∧
      itemCount (castVoteStep exState ⟨1, 1, ⟨1, 0⟩⟩) (resolveItemId ⟨1, 0⟩)
        = (itemCount exState (resolveItemId ⟨1, 0⟩)).map (fun c => c + 1) ∧
      ∀ j : Int, j ≠ resolveItemId ⟨1, 0⟩ →
        itemCount (castVoteStep exState ⟨1, 1, ⟨1, 0⟩⟩) j = itemCount exState j) ∧
    (∀ v : VoteRow, exState.votes.find? (voterPred 1 1) = some v →
      v.ballot_item_id ≠ resolveItemId ⟨1, 0⟩ →
      itemCount (castVoteStep exState ⟨1, 1, ⟨1, 0⟩⟩) v.ballot_item_id
        = (itemCount exState v.ballot_item_id).map (fun c => c - 1) ∧
      (castVoteStep exState ⟨1, 1, ⟨1, 0⟩⟩).votes
        = exState.votes.map (setVoteItem v.id (resolveItemId ⟨1, 0⟩)) ∧
      itemCount (castVoteStep exState ⟨1, 1, ⟨1, 0⟩⟩) (resolveItemId ⟨1, 0⟩)
        = (itemCount exState (resolveItemId ⟨1, 0⟩)).map (fun c => c + 1) ∧
      (∀ j : Int, j ≠ resolveItemId ⟨1, 0⟩ → j ≠ v.ballot_item_id →
        itemCount (castVoteStep exState ⟨1, 1, ⟨1, 0⟩⟩) j = itemCount exState j))) :=
  ⟨rfl, c3_cast_effects exState 1 1 ⟨1, 0⟩ (castVoteStep exState ⟨1, 1, ⟨1, 0⟩⟩) rfl⟩

/-- C9: when the request's `ballot_item_id` field is nonzero it is the
option the vote is recorded against, regardless of `option_id`; when it is
zero and `option_id` is nonzero, `option_id` is used. -/
theorem c9_ballot_item_precedence (s : DBState) (u b : Int) (req : VoteRequest)
    (s2 : DBState) (hok : castVote s u b req = .ok s2) :
    (req.ballot_item_id ≠ 0 →
      resolveItemId req = req.ballot_item_id ∧
      recordedOption s2 u b = some req.ballot_item_id) ∧
    (req.ballot_item_id = 0 → req.option_id ≠ 0 →
      resolveItemId req = req.option_id ∧
      recordedOption s2 u b = some req.option_id) := by
  have hrec := recordedOption_after_cast hok
  constructor
  · intro hb0
    have hres : resolveItemId req = req.ballot_item_id := by
      unfold resolveItemId
      rw [if_neg (by simp [hb0])]
    exact ⟨hres, by rw [hrec, hres]⟩
  · intro hb0 ho0
    have hres : resolveItemId req = req.option_id := by
      unfold resolveItemId
      rw [if_pos (by simp [hb0, ho0])]
    exact ⟨hres, by rw [hrec, hres]⟩

/-- C9 witness: a request carrying `ballot_item_id = 2` and `option_id = 1`
records the vote against option 2. -/
theorem c9_ballot_item_precedence_witness :
    castVote exState 1 1 ⟨2, 1⟩ = .ok (castVoteStep exState ⟨1, 1, ⟨2, 1⟩⟩) ∧
    (((⟨2, 1⟩ : VoteRequest).ballot_item_id ≠ 0 →
      resolveItemId ⟨2, 1⟩ = (⟨2, 1⟩ : VoteRequest).ballot_item_id ∧
      recordedOption (castVoteStep exState ⟨1, 1, ⟨2, 1⟩⟩) 1 1
        = some (⟨2, 1⟩ : VoteRequest).ballot_item_id) ∧
    ((⟨2, 1⟩ : VoteRequest).ballot_item_id = 0 →
      (⟨2, 1⟩ : VoteRequest).option_id ≠ 0 →
      resolveItemId ⟨2, 1⟩ = (⟨2, 1⟩ : VoteRequest).option_id ∧
      recordedOption (castVoteStep exState ⟨1, 1, ⟨2, 1⟩⟩) 1 1
        = some (⟨2, 1⟩ : VoteRequest).option_id)) :=
  ⟨rfl, c9_ballot_item_precedence exState 1 1 ⟨2, 1⟩
    (castVoteStep exState ⟨1, 1, ⟨2, 1⟩⟩) rfl⟩

/-- Decrementing and re-incrementing the same option (the code's no-op
re-vote path) cancels on every option count. -/
theorem itemCount_dec_then_inc (X : DBState) (t a j : Int) :
    itemCount (incItem (updateVoteRow (decItem X t) a t) t) j = itemCount X j := by
  by_cases hj : j = t
  · subst hj
    rw [itemCount_incItem, if_pos rfl, itemCount_updateVoteRow, itemCount_decItem,
      if_pos rfl]
    cases h : itemCount X j with
    | none => rfl
    | some c =>
        simp only [Option.map_some']
        congr 1
        omega
  · rw [itemCount_incItem, if_neg hj, itemCount_updateVoteRow, itemCount_decItem,
      if_neg hj]

theorem map_inc_then_dec (o : Option Int) :
    ((o.map (fun c => c + 1)).map (fun c => c + (-1))) = o := by
  cases o with
  | none => rfl
  | some c =>
      simp only [Option.map_some']
      congr 1
      omega

/-- C5: if a cast for `(u, b)` completes, immediately repeating the very
same request completes as well and leaves every option's `vote_count`
exactly as it was after the first cast. -/
theorem c5_revote_idempotent (s : DBState) (u b : Int) (req : VoteRequest)
    (s1 : DBState) (hok : castVote s u b req = .ok s1) :
    ∃ s2 : DBState, castVote s1 u b req = .ok s2 ∧
      ∀ j : Int, itemCount s2 j = itemCount s1 j := by
  obtain ⟨h0, ⟨brow, hb, ha⟩, ⟨item, hi, hib⟩, hcase⟩ := castVote_ok_cases hok
  rcases hcase with ⟨hnone, rfl⟩ | ⟨v, hv, rfl⟩
  · have hb1 : (incItem (insertVoteRow s u b (resolveItemId req))
        (resolveItemId req)).ballots.find? (fun x => x.id == b) = some brow := hb
    have hi1 : (incItem (insertVoteRow s u b (resolveItemId req))
        (resolveItemId req)).ballot_items.find?
          (fun i => i.id == resolveItemId req)
        = some (adjustItem (resolveItemId req) 1 item) := by
      have he : (incItem (insertVoteRow s u b (resolveItemId req))
          (resolveItemId req)).ballot_items
          = s.ballot_items.map (adjustItem (resolveItemId req) 1) := rfl
      rw [he, find?_id_map_adjust, hi]
      rfl
    have hib1 : (adjustItem (resolveItemId req) 1 item).ballot_id = b := by
      simpa using hib
    have hv1 : (incItem (insertVoteRow s u b (resolveItemId req))
        (resolveItemId req)).votes.find? (voterPred u b)
        = some ⟨s.nextVoteId, u, b, resolveItemId req⟩ :=
      find?_voter_insert s u b (resolveItemId req) hnone
    refine ⟨_, ?_, fun j => itemCount_dec_then_inc _ (resolveItemId req)
      s.nextVoteId j⟩
    rw [castVote_eq_txn _ u b req h0 hb1 ha hi1 hib1, hv1]
    rfl
  · have hrow : setVoteItem v.id (resolveItemId req) v
        = { v with ballot_item_id := resolveItemId req } := by
      unfold setVoteItem
      rw [if_pos (by simp)]
    have hb1 : (incItem (updateVoteRow (decItem s v.ballot_item_id) v.id
        (resolveItemId req)) (resolveItemId req)).ballots.find?
          (fun x => x.id == b) = some brow := hb
    have hi1 : (incItem (updateVoteRow (decItem s v.ballot_item_id) v.id
        (resolveItemId req)) (resolveItemId req)).ballot_items.find?
          (fun i => i.id == resolveItemId req)
        = some (adjustItem (resolveItemId req) 1
            (adjustItem v.ballot_item_id (-1) item)) := by
      have he : (incItem (updateVoteRow (decItem s v.ballot_item_id) v.id
          (resolveItemId req)) (resolveItemId req)).ballot_items
          = (s.ballot_items.map (adjustItem v.ballot_item_id (-1))).map
              (adjustItem (resolveItemId req) 1) := rfl
      rw [he, find?_id_map_adjust, find?_id_map_adjust, hi]
      rfl
    have hib1 : (adjustItem (resolveItemId req) 1
        (adjustItem v.ballot_item_id (-1) item)).ballot_id = b := by
      simpa using hib
    have hv1 : (incItem (updateVoteRow (decItem s v.ballot_item_id) v.id
        (resolveItemId req)) (resolveItemId req)).votes.find? (voterPred u b)
        = some { v with ballot_item_id := resolveItemId req } := by
      have he : (incItem (updateVoteRow (decItem s v.ballot_item_id) v.id
          (resolveItemId req)) (resolveItemId req)).votes
          = s.votes.map (setVoteItem v.id (resolveItemId req)) := rfl
      rw [he, find?_voter_map_set, hv]
      rw [Option.map_some', hrow]
    refine ⟨_, ?_, fun j => itemCount_dec_then_inc _ (resolveItemId req) v.id j⟩
    rw [castVote_eq_txn _ u b req h0 hb1 ha hi1 hib1, hv1]
    rfl

/-- C5 witness: user 1 re-sends the cast for option 1 on the concrete
store; all counts stay at their after-first-cast values. -/
theorem c5_revote_idempotent_witness :
    castVote exState 1 1 ⟨1, 0⟩ = .ok (castVoteStep exState ⟨1, 1, ⟨1, 0⟩⟩) ∧
    ∃ s2 : DBState,
      castVote (castVoteStep exState ⟨1, 1, ⟨1, 0⟩⟩) 1 1 ⟨1, 0⟩ = .ok s2 ∧
      ∀ j : Int, itemCount s2 j = itemCount (castVoteStep exState ⟨1, 1, ⟨1, 0⟩⟩) j :=
  ⟨rfl, c5_revote_idempotent exState 1 1 ⟨1, 0⟩
    (castVoteStep exState ⟨1, 1, ⟨1, 0⟩⟩) rfl⟩

/-- C6: with no prior vote for `(u, b)`, casting option A and then a
different option B leaves A's count at its pre-vote value, leaves B's count
incremented by exactly 1 over its pre-vote value, and leaves exactly one
vote row for `(u, b)`, pointing at B. -/
theorem c6_vote_switch (s : DBState) (u b : Int) (reqA reqB : VoteRequest)
    (s1 s2 : DBState)
    (hfresh : s.votes.find? (voterPred u b) = none)
    (hAB : resolveItemId reqA ≠ resolveItemId reqB)
    (h1 : castVote s u b reqA = .ok s1)
    (h2 : castVote s1 u b reqB = .ok s2) :
    itemCount s2 (resolveItemId reqA) = itemCount s (resolveItemId reqA) ∧
    itemCount s2 (resolveItemId reqB)
      = (itemCount s (resolveItemId reqB)).map (fun c => c + 1) ∧
    (s2.votes.filter (voterPred u b)).map (fun v => v.ballot_item_id)
      = [resolveItemId reqB] := by
  obtain ⟨h0A, hbA, hiA, hcaseA⟩ := castVote_ok_cases h1
  rcases hcaseA with ⟨hnA, rfl⟩ | ⟨v, hv, rfl⟩
  swap
  · rw [hfresh] at hv
    exact absurd hv (by simp)
  obtain ⟨h0B, hbB, hiB, hcaseB⟩ := castVote_ok_cases h2
  have hv1 : (incItem (insertVoteRow s u b (resolveItemId reqA))
      (resolveItemId reqA)).votes.find? (voterPred u b)
      = some ⟨s.nextVoteId, u, b, resolveItemId reqA⟩ :=
    find?_voter_insert s u b (resolveItemId reqA) hfresh
  rcases hcaseB with ⟨hnB, rfl⟩ | ⟨w, hw, rfl⟩
  · rw [hv1] at hnB
    exact absurd hnB (by simp)
  rw [hv1] at hw
  injection hw with hw2
  subst hw2
  dsimp only
  refine ⟨?_, ?_, ?_⟩
  · rw [itemCount_incItem, if_neg hAB, itemCount_updateVoteRow,
      itemCount_decItem, if_pos rfl]
    have hA1 : itemCount (incItem (insertVoteRow s u b (resolveItemId reqA))
        (resolveItemId reqA)) (resolveItemId reqA)
        = (itemCount s (resolveItemId reqA)).map (fun c => c + 1) := by
      rw [itemCount_incItem, if_pos rfl, itemCount_insertVoteRow]
    rw [hA1, map_inc_then_dec]
  · rw [itemCount_incItem, if_pos rfl, itemCount_updateVoteRow,
      itemCount_decItem, if_neg (fun h => hAB h.symm), itemCount_incItem,
      if_neg (fun h => hAB h.symm), itemCount_insertVoteRow]
  · have hvotes : (incItem (updateVoteRow (decItem
        (incItem (insertVoteRow s u b (resolveItemId reqA)) (resolveItemId reqA))
        (resolveItemId reqA)) s.nextVoteId (resolveItemId reqB))
        (resolveItemId reqB)).votes
        = (s.votes ++ [(⟨s.nextVoteId, u, b, resolveItemId reqA⟩ : VoteRow)]).map
            (setVoteItem s.nextVoteId (resolveItemId reqB)) := rfl
    rw [hvotes, filter_voter_map_set, List.filter_append]
    have hnil : s.votes.filter (voterPred u b) = [] := by
      rw [List.filter_eq_nil_iff]
      exact List.find?_eq_none.mp hfresh
    have hone : List.filter (voterPred u b)
        [(⟨s.nextVoteId, u, b, resolveItemId reqA⟩ : VoteRow)]
        = [(⟨s.nextVoteId, u, b, resolveItemId reqA⟩ : VoteRow)] := by
      simp [voterPred]
    rw [hnil, hone]
    have hset : setVoteItem s.nextVoteId (resolveItemId reqB)
        (⟨s.nextVoteId, u, b, resolveItemId reqA⟩ : VoteRow)
        = (⟨s.nextVoteId, u, b, resolveItemId reqB⟩ : VoteRow) := by
      unfold setVoteItem
      rw [if_pos (by simp)]
    simp [hset]

/-- C6 witness: on the concrete store, user 1 casts option 1 and then
option 2; option 1 returns to 0, option 2 ends at 1, one row points at 2. -/
theorem c6_vote_switch_witness :
    exState.votes.find? (voterPred 1 1) = none ∧
    resolveItemId ⟨1, 0⟩ ≠ resolveItemId ⟨2, 0⟩ ∧
    castVote exState 1 1 ⟨1, 0⟩ = .ok (castVoteStep exState ⟨1, 1, ⟨1, 0⟩⟩) ∧
    castVote (castVoteStep exState ⟨1, 1, ⟨1, 0⟩⟩) 1 1 ⟨2, 0⟩
      = .ok (castVoteStep (castVoteStep exState ⟨1, 1, ⟨1, 0⟩⟩) ⟨1, 1, ⟨2, 0⟩⟩) ∧
    (itemCount (castVoteStep (castVoteStep exState ⟨1, 1, ⟨1, 0⟩⟩) ⟨1, 1, ⟨2, 0⟩⟩)
        (resolveItemId ⟨1, 0⟩) = itemCount exState (resolveItemId ⟨1, 0⟩) ∧
      itemCount (castVoteStep (castVoteStep exState ⟨1, 1, ⟨1, 0⟩⟩) ⟨1, 1, ⟨2, 0⟩⟩)
        (resolveItemId ⟨2, 0⟩)
        = (itemCount exState (resolveItemId ⟨2, 0⟩)).map (fun c => c + 1) ∧
      ((castVoteStep (castVoteStep exState ⟨1, 1, ⟨1, 0⟩⟩) ⟨1, 1, ⟨2, 0⟩⟩).votes.filter
          (voterPred 1 1)).map (fun v => v.ballot_item_id)
        = [resolveItemId ⟨2, 0⟩]) :=
  ⟨rfl, by decide, rfl, rfl,
    c6_vote_switch exState 1 1 ⟨1, 0⟩ ⟨2, 0⟩
      (castVoteStep exState ⟨1, 1, ⟨1, 0⟩⟩)
      (castVoteStep (castVoteStep exState ⟨1, 1, ⟨1, 0⟩⟩) ⟨1, 1, ⟨2, 0⟩⟩)
      rfl (by decide) rfl rfl⟩

/-- C4: the four validations run in order with four pairwise-distinct
responses, and any validation failure leaves the store untouched (the
handler returns before `tx.Begin()`). -/
theorem c4_validation_order (s : DBState) (u b : Int) (req : VoteRequest)
    (ht : (resolveItemId req == 0) = false) :
    (s.ballots.find? (fun x => x.id == b) = none →
      castVote s u b req = .error ballotNotFoundErr) ∧
    (∀ brow : BallotRow, s.ballots.find? (fun x => x.id == b) = some brow →
      brow.is_active = false →
      castVote s u b req = .error ballotInactiveErr) ∧
    (∀ brow : BallotRow, s.ballots.find? (fun x => x.id == b) = some brow →
      brow.is_active = true →
      s.ballot_items.find? (fun i => i.id == resolveItemId req) = none →
      castVote s u b req = .error itemNotFoundErr) ∧
    (∀ (brow : BallotRow) (item : BallotItemRow),
      s.ballots.find? (fun x => x.id == b) = some brow →
      brow.is_active = true →
      s.ballot_items.find? (fun i => i.id == resolveItemId req) = some item →
      item.ballot_id ≠ b →
      castVote s u b req = .error itemMismatchErr) ∧
    (ballotNotFoundErr ≠ ballotInactiveErr ∧ ballotNotFoundErr ≠ itemNotFoundErr ∧
      ballotNotFoundErr ≠ itemMismatchErr ∧ ballotInactiveErr ≠ itemNotFoundErr ∧
      ballotInactiveErr ≠ itemMismatchErr ∧ itemNotFoundErr ≠ itemMismatchErr) ∧
    (∀ e : HttpError, castVote s u b req = .error e →
      castVoteStep s ⟨u, b, req⟩ = s) := by
  refine ⟨?_, ?_, ?_, ?_, by decide, ?_⟩
  · intro hb
    simp [castVote, ht, hb]
  · intro brow hb hact
    simp [castVote, ht, hb, hact]
  · intro brow hb hact hitem
    simp [castVote, ht, hb, hact, hitem]
  · intro brow item hb hact hitem hmb
    simp [castVote, ht, hb, hact, hitem, hmb]
  · intro e he
    unfold castVoteStep
    dsimp only
    rw [he]

/-- C4 witness: instantiated at a request against the nonexistent ballot
999 of the concrete store. -/
theorem c4_validation_order_witness :
    ((resolveItemId ⟨1, 0⟩ == 0) = false) ∧
    ((exState.ballots.find? (fun x => x.id == 999) = none →
      castVote exState 5 999 ⟨1, 0⟩ = .error ballotNotFoundErr) ∧
    (∀ brow : BallotRow, exState.ballots.find? (fun x => x.id == 999) = some brow →
      brow.is_active = false →
      castVote exState 5 999 ⟨1, 0⟩ = .error ballotInactiveErr) ∧
    (∀ brow : BallotRow, exState.ballots.find? (fun x => x.id == 999) = some brow →
      brow.is_active = true →
      exState.ballot_items.find? (fun i => i.id == resolveItemId ⟨1, 0⟩) = none →
      castVote exState 5 999 ⟨1, 0⟩ = .error itemNotFoundErr) ∧
    (∀ (brow : BallotRow) (item : BallotItemRow),
      exState.ballots.find? (fun x => x.id == 999) = some brow →
      brow.is_active = true →
      exState.ballot_items.find? (fun i => i.id == resolveItemId ⟨1, 0⟩) = some item →
      item.ballot_id ≠ 999 →
      castVote exState 5 999 ⟨1, 0⟩ = .error itemMismatchErr) ∧
    (ballotNotFoundErr ≠ ballotInactiveErr ∧ ballotNotFoundErr ≠ itemNotFoundErr ∧
      ballotNotFoundErr ≠ itemMismatchErr ∧ ballotInactiveErr ≠ itemNotFoundErr ∧
      ballotInactiveErr ≠ itemMismatchErr ∧ itemNotFoundErr ≠ itemMismatchErr) ∧
    (∀ e : HttpError, castVote exState 5 999 ⟨1, 0⟩ = .error e →
      castVoteStep exState ⟨5, 999, ⟨1, 0⟩⟩ = exState)) :=
  ⟨by decide, c4_validation_order exState 5 999 ⟨1, 0⟩ (by decide)⟩

/-- C7: for any existing ballot (active or not) the results read succeeds,
returns the ballot's options sorted by `vote_count` descending with ties
broken by ascending id, reports `total_votes` as the sum of the returned
counts, and yields an empty list with total 0 when the ballot has no
options. -/
theorem c7_results_shape (s : DBState) (b : Int)
    (hex : s.ballots.any (fun x => x.id == b) = true) :
    ∃ r : ResultsResponse, getBallotResults s b = .ok r ∧
      r.ballot_id = b ∧
      List.Pairwise (fun a c : ResultItem =>
        c.vote_count < a.vote_count ∨ (a.vote_count = c.vote_count ∧ a.id ≤ c.id))
        r.results ∧
      r.results.Perm
        ((s.ballot_items.filter (fun i => i.ballot_id == b)).map toResultItem) ∧
      r.total_votes = (r.results.map (fun i => i.vote_count)).sum ∧
      ((s.ballot_items.filter (fun i => i.ballot_id == b)) = [] →
        r.results = [] ∧ r.total_votes = 0) := by
  refine ⟨⟨b,
    ((s.ballot_items.filter (fun i => i.ballot_id == b)).insertionSort
      resultsOrder).map toResultItem,
    (((s.ballot_items.filter (fun i => i.ballot_id == b)).insertionSort
      resultsOrder).map (fun i => i.vote_count)).sum⟩, ?_, rfl, ?_, ?_, ?_, ?_⟩
  · unfold getBallotResults
    rw [if_pos hex]
  · have hs := List.sorted_insertionSort resultsOrder
      (s.ballot_items.filter (fun i => i.ballot_id == b))
    rw [List.pairwise_map]
    exact hs.imp (fun hac => by simpa [resultsOrder, toResultItem] using hac)
  · exact (List.perm_insertionSort resultsOrder
      (s.ballot_items.filter (fun i => i.ballot_id == b))).map toResultItem
  · rw [List.map_map]
    rfl
  · intro h0
    rw [h0]
    exact ⟨rfl, rfl⟩

/-- C7 witness: results for the inactive ballot 2 of the concrete store
are still served, sorted, with matching total. -/
theorem c7_results_shape_witness :
    (exState.ballots.any (fun x => x.id == 2) = true) ∧
    ∃ r : ResultsResponse, getBallotResults exState 2 = .ok r ∧
      r.ballot_id = 2 ∧
      List.Pairwise (fun a c : ResultItem =>
        c.vote_count < a.vote_count ∨ (a.vote_count = c.vote_count ∧ a.id ≤ c.id))
        r.results ∧
      r.results.Perm
        ((exState.ballot_items.filter (fun i => i.ballot_id == 2)).map toResultItem) ∧
      r.total_votes = (r.results.map (fun i => i.vote_count)).sum ∧
      ((exState.ballot_items.filter (fun i => i.ballot_id == 2)) = [] →
        r.results = [] ∧ r.total_votes = 0) :=
  ⟨by decide, c7_results_shape exState 2 (by decide)⟩

/-- C8 counterexample: at the concrete race the handler answers
`500 Error creating vote` — not a retryable conflict, and carrying the
same 500 status as the generic storage-error response, because the Go code
maps every `INSERT` failure to this one response. -/
theorem c8_counterexample :
    voteTxnBody s8race none 7 1 1 = .error errCreatingVote ∧
    ¬ retryableConflict errCreatingVote ∧
    errCreatingVote.status = dbGenericErr.status := by
  refine ⟨rfl, ?_, rfl⟩
  unfold retryableConflict
  decide

/-- C8 amended: when the insert races a committed vote for the same pair,
the uniqueness constraint does reject it and the transaction aborts with no
state change (no duplicate row), but the failure is surfaced as the generic
HTTP 500 `Error creating vote` — the response used for every insert
failure — not as a distinct retryable conflict. -/
theorem c8_conflict_surfaced_generic (s : DBState) (u b t : Int)
    (hrace : s.votes.any (voterPred u b) = true) :
    voteTxnBody s none u b t = .error errCreatingVote ∧
    txnStepState s none u b t = s ∧
    errCreatingVote.status = 500 ∧
    ¬ retryableConflict errCreatingVote := by
  have h : voteTxnBody s none u b t = .error errCreatingVote := by
    unfold voteTxnBody
    simp [hrace]
  refine ⟨h, ?_, rfl, ?_⟩
  · unfold txnStepState
    rw [h]
  · unfold retryableConflict
    decide

/-- C8 amended witness: the behaviour at the concrete raced store. -/
theorem c8_conflict_surfaced_generic_witness :
    (s8race.votes.any (voterPred 7 1) = true) ∧
    (voteTxnBody s8race none 7 1 1 = .error errCreatingVote ∧
      txnStepState s8race none 7 1 1 = s8race ∧
      errCreatingVote.status = 500 ∧
      ¬ retryableConflict errCreatingVote) :=
  ⟨by decide, c8_conflict_surfaced_generic s8race 7 1 1 (by decide)⟩

/-- C10: a request in which both option fields are zero (or absent, which
Go decodes as zero) is rejected with the dedicated required-field error for
every store — in particular before any ballot or option lookup — with no
state change, and consequently no cast ever writes a vote row whose option
id is 0. -/
theorem c10_required_field (s : DBState) (u b : Int) (req : VoteRequest)
    (h0 : req.ballot_item_id = 0) (h1 : req.option_id = 0) :
    castVote s u b req = .error requiredFieldErr ∧
    castVoteStep s ⟨u, b, req⟩ = s ∧
    (requiredFieldErr ≠ ballotNotFoundErr ∧ requiredFieldErr ≠ ballotInactiveErr ∧
      requiredFieldErr ≠ itemNotFoundErr ∧ requiredFieldErr ≠ itemMismatchErr ∧
      requiredFieldErr ≠ errCreatingVote ∧ requiredFieldErr ≠ dbGenericErr) ∧
    (∀ op : CastOp, (∀ v ∈ s.votes, v.ballot_item_id ≠ 0) →
      ∀ v2 ∈ (castVoteStep s op).votes, v2.ballot_item_id ≠ 0) := by
  have hres : resolveItemId req = 0 := by
    unfold resolveItemId
    rw [h0, h1]
    decide
  have hcast : castVote s u b req = .error requiredFieldErr := by
    unfold castVote
    rw [hres]
    rfl
  refine ⟨hcast, ?_, by decide, ?_⟩
  · unfold castVoteStep
    dsimp only
    rw [hcast]
  · intro op hno v2
    unfold castVoteStep
    cases hcv : castVote s op.userId op.ballotId op.req with
    | error e => exact fun hv2 => hno v2 hv2
    | ok s2 =>
        intro hv2
        obtain ⟨hz, hbex, hiex, hcase⟩ := castVote_ok_cases hcv
        have hnz : resolveItemId op.req ≠ 0 := by
          simpa using hz
        rcases hcase with ⟨hn, rfl⟩ | ⟨v, hv, rfl⟩
        · rw [incItem_votes, insertVoteRow_votes] at hv2
          rcases List.mem_append.mp hv2 with hv2a | hv2b
          · exact hno v2 hv2a
          · simp only [List.mem_singleton] at hv2b
            subst hv2b
            exact hnz
        · rw [incItem_votes, updateVoteRow_votes, decItem_votes] at hv2
          obtain ⟨w, hw, rfl⟩ := List.mem_map.mp hv2
          unfold setVoteItem
          split
          · exact hnz
          · exact hno w hw

/-- C10 witness: an all-zero request against the concrete store (with a
nonexistent ballot id, showing the check precedes the ballot lookup). -/
theorem c10_required_field_witness :
    ((⟨0, 0⟩ : VoteRequest).ballot_item_id = 0) ∧
    ((⟨0, 0⟩ : VoteRequest).option_id = 0) ∧
    (castVote exState 3 999 ⟨0, 0⟩ = .error requiredFieldErr ∧
      castVoteStep exState ⟨3, 999, ⟨0, 0⟩⟩ = exState ∧
      (requiredFieldErr ≠ ballotNotFoundErr ∧ requiredFieldErr ≠ ballotInactiveErr ∧
        requiredFieldErr ≠ itemNotFoundErr ∧ requiredFieldErr ≠ itemMismatchErr ∧
        requiredFieldErr ≠ errCreatingVote ∧ requiredFieldErr ≠ dbGenericErr) ∧
      (∀ op : CastOp, (∀ v ∈ exState.votes, v.ballot_item_id ≠ 0) →
        ∀ v2 ∈ (castVoteStep exState op).votes, v2.ballot_item_id ≠ 0)) :=
  ⟨rfl, rfl, c10_required_field exState 3 999 ⟨0, 0⟩ rfl rfl⟩
